import Mathlib

/-!
Shallow embedding of the client-side state machine in `src/ds4.rs`
(virtual DualShock 4 target lifecycle and the asynchronous notification
protocol), together with theorems checking the specification's claims.

The `bus` module, the `Client`/`Event` handles and the transport are
external collaborators (not part of the verified source); they are
modelled as oracles: each device-control call takes its outcome as an
explicit argument, and the bus-level completion state of an outstanding
notification request is an explicit `IoStatus` value.
-/

/-- Error taxonomy of the crate, as used by `ds4.rs`:
`AlreadyConnected`, `NotPluggedIn`, `NoFreeSlot`, `OperationAborted`
and the opaque passthrough `WinError code`. -/
inductive Error where
  | AlreadyConnected
  | NotPluggedIn
  | NoFreeSlot
  | OperationAborted
  | WinError (code : Nat)
deriving DecidableEq, Repr

/-- Windows error code `ERROR_OPERATION_ABORTED` from `winapi::shared::winerror`. -/
def ERROR_OPERATION_ABORTED : Nat := 995

/-- Windows error code `ERROR_IO_INCOMPLETE` from `winapi::shared::winerror`. -/
def ERROR_IO_INCOMPLETE : Nat := 996

/-- Immutable (vendor, product) pair, `TargetId` in the crate. -/
structure TargetId where
  vendor : Nat
  product : Nat
deriving DecidableEq, Repr

/-- Light-bar color of the DS4 output report (`DS4LightbarColor`); its exact
byte fields are payload marshaling (out of scope), kept as three numbers. -/
structure DS4LightbarColor where
  red : Nat
  green : Nat
  blue : Nat
deriving DecidableEq, Repr

/-- Output report `bus::DS4OutputReport`: `{small_motor, large_motor, lightbar_color}`. -/
structure DS4OutputReport where
  small_motor : Nat
  large_motor : Nat
  lightbar_color : DS4LightbarColor
deriving DecidableEq, Repr

/-- Opaque basic input-state report (`DS4Report`); its encoder is out of scope. -/
def DS4Report : Type := Nat

/-- Opaque extended input-state report (`DS4ReportEx`); its encoder is out of scope. -/
def DS4ReportEx : Type := Nat

/-- Device-control requests that `ds4.rs` issues against the bus controller,
labelled by request kind and payload, so that theorems can speak about which
ioctls an operation performed. -/
inductive Ioctl where
  | pluginReq (serialNo vendor product : Nat)
  | unplugReq (serialNo : Nat)
  | waitReadyReq (serialNo : Nat)
  | updateReq (serialNo : Nat) (report : Nat)
  | updateExReq (serialNo : Nat) (report : Nat)
deriving DecidableEq, Repr

/-- The in-flight buffer of `bus::DS4RequestNotification`: the slot snapshot
`SerialNo` and the output `Report` the controller writes into. -/
structure DS4RNBuffer where
  SerialNo : Nat
  Report : DS4OutputReport
deriving DecidableEq, Repr

/-- Modelled from the spec: the completion state of the outstanding
asynchronous device-control call backing a notification request (the `bus`
module is not part of the verified source). `pending` also covers a fresh
object on which no request was ever issued. -/
inductive IoStatus where
  | pending
  | completed
  | aborted
  | failed (code : Nat)
deriving DecidableEq, Repr

/-- State of a `DSRequestNotification`: the pinned in-flight buffer plus the
bus-level completion status of the outstanding call (the `client` handle is
opaque and carries no state relevant to the claims). -/
structure DSRequestNotification where
  buffer : DS4RNBuffer
  status : IoStatus
deriving DecidableEq, Repr

/-- Fresh notification object as built by `request_notification`:
`bus::DS4RequestNotification::new(serial_no)` with no request outstanding. -/
def DSRequestNotification.new (serialNo : Nat) : DSRequestNotification :=
  { buffer := { SerialNo := serialNo
                Report := { small_motor := 0, large_motor := 0
                            lightbar_color := { red := 0, green := 0, blue := 0 } } }
    status := .pending }

/-- Returns if the underlying target is still attached (`buffer.SerialNo != 0`). -/
def DSRequestNotification.is_attached (s : DSRequestNotification) : Bool :=
  s.buffer.SerialNo != 0

/-- Modelled from the spec: `bus::RequestNotification::poll` inspects the
completion state of the outstanding call without mutating it. It yields
`none` when the call would block forever (`pending` with `wait = true` and
no controller activity); otherwise the result the `ds4.rs` match scrutinises:
`Ok` on completion, `ERROR_IO_INCOMPLETE` while pending without waiting,
`ERROR_OPERATION_ABORTED` when the target was unplugged, or the raw code. -/
def busPoll : IoStatus → Bool → Option (Except Nat Unit)
  | .pending, true => none
  | .pending, false => some (.error ERROR_IO_INCOMPLETE)
  | .completed, _ => some (.ok ())
  | .aborted, _ => some (.error ERROR_OPERATION_ABORTED)
  | .failed code, _ => some (.error code)

/-- Requests a notification (`DSRequestNotification::request`): if
`buffer.SerialNo != 0` it issues `ds4rn.ioctl(device)`, arming a new
outstanding asynchronous call (status becomes pending until the controller
acts); otherwise it does nothing. The boolean reports whether a
device-control request was issued. -/
def DSRequestNotification.request (s : DSRequestNotification) :
    DSRequestNotification × Bool :=
  if s.buffer.SerialNo != 0 then ({ s with status := .pending }, true)
  else (s, false)

/-- Polls the request for notifications (`DSRequestNotification::poll`),
mirroring the match in `ds4.rs`: on `Ok` copies the three report fields out
of the in-flight buffer; on `ERROR_IO_INCOMPLETE` yields `Ok none`; on
`ERROR_OPERATION_ABORTED` clears `buffer.SerialNo` to 0 and fails with
`OperationAborted`; any other code becomes `WinError`. The outer `none`
means the call blocks (pending with `wait = true`). -/
def DSRequestNotification.poll (s : DSRequestNotification) (wait : Bool) :
    Option (DSRequestNotification × Except Error (Option DS4OutputReport)) :=
  match busPoll s.status wait with
  | none => none
  | some (.ok ()) =>
      some (s, .ok (some { small_motor := s.buffer.Report.small_motor
                           large_motor := s.buffer.Report.large_motor
                           lightbar_color := s.buffer.Report.lightbar_color }))
  | some (.error code) =>
      if code = ERROR_IO_INCOMPLETE then
        some (s, .ok none)
      else if code = ERROR_OPERATION_ABORTED then
        some ({ s with buffer := { s.buffer with SerialNo := 0 } },
              .error .OperationAborted)
      else
        some (s, .error (.WinError code))

/-- Environment step: the controller completes the outstanding notification,
writing the report into the in-flight buffer. -/
def DSRequestNotification.completeWith (s : DSRequestNotification)
    (r : DS4OutputReport) : DSRequestNotification :=
  { s with status := .completed, buffer := { s.buffer with Report := r } }

/-- Environment step: the controller aborts the outstanding notification
(this happens when the underlying target is unplugged). -/
def DSRequestNotification.abortPending (s : DSRequestNotification) :
    DSRequestNotification :=
  { s with status := .aborted }

/-- Object-level operations of a notification object, for stating properties
over arbitrary call sequences. -/
inductive RNOp where
  | requestOp
  | pollOp (wait : Bool)

/-- Applies one object-level operation; the boolean reports whether the
operation issued a device-control request. A blocking poll that never
returns leaves the state unchanged. -/
def applyRNOp (s : DSRequestNotification) : RNOp → DSRequestNotification × Bool
  | .requestOp => s.request
  | .pollOp wait =>
      match s.poll wait with
      | none => (s, false)
      | some (s', _) => (s', false)

/-- Runs a sequence of object-level operations. -/
def runRN (s : DSRequestNotification) : List RNOp → DSRequestNotification
  | [] => s
  | op :: ops => runRN (applyRNOp s op).1 ops

/-- Counts the device-control requests issued along a sequence of
object-level operations. -/
def ioctlCount (s : DSRequestNotification) : List RNOp → Nat
  | [] => 0
  | op :: ops =>
      (if (applyRNOp s op).2 then 1 else 0) + ioctlCount (applyRNOp s op).1 ops

/-- Events on the drop path of a notification object: the cancellation call
and the release of the in-flight buffer (Rust frees the fields after
`Drop::drop` returns). -/
inductive DropEvent where
  | cancelEv
  | freeBufferEv
deriving DecidableEq, Repr

/-- Drop path of `DSRequestNotification` (`impl Drop` in `ds4.rs`): when the
slot snapshot is nonzero it cancels the pending asynchronous call, discarding
the cancellation's outcome (`let _ = ds4rn.cancel(device)`), and only then is
the in-flight buffer's memory released. The result is the ordered event list;
the `cancelResult` oracle argument is deliberately unused. -/
def DSRequestNotification.dropRun (s : DSRequestNotification)
    (_cancelResult : Except Nat Unit) : List DropEvent :=
  (if s.buffer.SerialNo != 0 then [DropEvent.cancelEv] else [])
    ++ [DropEvent.freeBufferEv]

/-- Virtual Sony DualShock 4 (wired) target, `DualShock4Wired` in `ds4.rs`:
the owned client handle (opaque), the controller-assigned `serial_no`
(0 means unattached) and the construction-time `TargetId`. The completion
`Event` is an opaque rendezvous primitive with no observable state. -/
structure DualShock4Wired where
  client : Nat
  serial_no : Nat
  id : TargetId
deriving DecidableEq, Repr

/-- Creates a new instance (`DualShock4Wired::new`): `serial_no = 0`. -/
def DualShock4Wired.new (client : Nat) (id : TargetId) : DualShock4Wired :=
  { client := client, serial_no := 0, id := id }

/-- Returns if the controller is plugged in (`serial_no != 0`). -/
def DualShock4Wired.is_attached (t : DualShock4Wired) : Bool :=
  t.serial_no != 0

/-- The slot-probe loop inside `plugin`: starting from the given candidate
(`bus::PluginTarget::ds4_wired(1, ..)` starts at 1), issue the attach ioctl;
while it fails, increment `SerialNo` and give up with no slot once
`SerialNo >= u16::MAX` (65535). Returns the accepted candidate (or `none`)
together with the list of candidates actually probed, in order. The
controller's acceptance policy is the oracle `accept`. -/
def pluginLoop (accept : Nat → Bool) (serialNo : Nat) : Option Nat × List Nat :=
  if accept serialNo then
    (some serialNo, [serialNo])
  else if _h : 65535 ≤ serialNo + 1 then
    (none, [serialNo])
  else
    let rest := pluginLoop accept (serialNo + 1)
    (rest.1, serialNo :: rest.2)
termination_by 65535 - serialNo
decreasing_by omega

/-- Plugs the controller in (`DualShock4Wired::plugin`): fails with
`AlreadyConnected` when attached; otherwise runs the probe loop from
candidate 1 and on success stores the accepted candidate in `serial_no`.
Returns the new state, the result, and the ioctls issued. -/
def DualShock4Wired.plugin (t : DualShock4Wired) (accept : Nat → Bool) :
    DualShock4Wired × Except Error Unit × List Ioctl :=
  if t.is_attached then
    (t, .error .AlreadyConnected, [])
  else
    match pluginLoop accept 1 with
    | (some s, probed) =>
        ({ t with serial_no := s }, .ok (),
         probed.map fun n => .pluginReq n t.id.vendor t.id.product)
    | (none, probed) =>
        (t, .error .NoFreeSlot,
         probed.map fun n => .pluginReq n t.id.vendor t.id.product)

/-- Unplugs the controller (`DualShock4Wired::unplug`): fails with
`NotPluggedIn` when unattached; otherwise issues the detach ioctl for the
current slot, propagating its error unchanged via `?`, and on success sets
`serial_no = 0`. The ioctl's outcome is the oracle `r`. -/
def DualShock4Wired.unplug (t : DualShock4Wired) (r : Except Error Unit) :
    DualShock4Wired × Except Error Unit × List Ioctl :=
  if !t.is_attached then
    (t, .error .NotPluggedIn, [])
  else
    match r with
    | .error e => (t, .error e, [.unplugReq t.serial_no])
    | .ok () => ({ t with serial_no := 0 }, .ok (), [.unplugReq t.serial_no])

/-- Waits until the virtual controller is ready (`DualShock4Wired::wait_ready`). -/
def DualShock4Wired.wait_ready (t : DualShock4Wired) (r : Except Error Unit) :
    DualShock4Wired × Except Error Unit × List Ioctl :=
  if !t.is_attached then
    (t, .error .NotPluggedIn, [])
  else
    match r with
    | .error e => (t, .error e, [.waitReadyReq t.serial_no])
    | .ok () => (t, .ok (), [.waitReadyReq t.serial_no])

/-- Updates the virtual controller state (`DualShock4Wired::update`). -/
def DualShock4Wired.update (t : DualShock4Wired) (report : Nat)
    (r : Except Error Unit) : DualShock4Wired × Except Error Unit × List Ioctl :=
  if !t.is_attached then
    (t, .error .NotPluggedIn, [])
  else
    match r with
    | .error e => (t, .error e, [.updateReq t.serial_no report])
    | .ok () => (t, .ok (), [.updateReq t.serial_no report])

/-- Updates the state using the extended report (`DualShock4Wired::update_ex`). -/
def DualShock4Wired.update_ex (t : DualShock4Wired) (report : Nat)
    (r : Except Error Unit) : DualShock4Wired × Except Error Unit × List Ioctl :=
  if !t.is_attached then
    (t, .error .NotPluggedIn, [])
  else
    match r with
    | .error e => (t, .error e, [.updateExReq t.serial_no report])
    | .ok () => (t, .ok (), [.updateExReq t.serial_no report])

/-- Requests a notification object (`DualShock4Wired::request_notification`):
fails with `NotPluggedIn` when unattached; otherwise clones the client
(outcome is the oracle `r`) and builds a fresh notification object bound to
the current slot. Issues no device-control request itself. -/
def DualShock4Wired.request_notification (t : DualShock4Wired)
    (r : Except Error Unit) :
    DualShock4Wired × Except Error DSRequestNotification × List Ioctl :=
  if !t.is_attached then
    (t, .error .NotPluggedIn, [])
  else
    match r with
    | .error e => (t, .error e, [])
    | .ok () => (t, .ok (.new t.serial_no), [])

/-- Consuming teardown (`DualShock4Wired::drop(self) -> CL`): performs
`let _ = self.unplug()` (error discarded) and returns the client
unconditionally; the result type carries no error. -/
def DualShock4Wired.dropConsume (t : DualShock4Wired)
    (r : Except Error Unit) : Nat × List Ioctl :=
  let u := t.unplug r
  (t.client, u.2.2)

/-- Implicit teardown (`impl Drop for DualShock4Wired`): performs
`let _ = self.unplug()`, discarding any error; returns only the ioctls
issued, never an error. -/
def DualShock4Wired.dropImpl (t : DualShock4Wired)
    (r : Except Error Unit) : List Ioctl :=
  (t.unplug r).2.2

/-- Public operations of a target, each carrying its oracle outcome, to state
invariants over every reachable state. -/
inductive Op where
  | pluginOp (accept : Nat → Bool)
  | unplugOp (r : Except Error Unit)
  | waitReadyOp (r : Except Error Unit)
  | updateOp (report : Nat) (r : Except Error Unit)
  | updateExOp (report : Nat) (r : Except Error Unit)
  | requestNotificationOp (r : Except Error Unit)

/-- State reached after one public operation. -/
def stepOp (t : DualShock4Wired) : Op → DualShock4Wired
  | .pluginOp accept => (t.plugin accept).1
  | .unplugOp r => (t.unplug r).1
  | .waitReadyOp r => (t.wait_ready r).1
  | .updateOp report r => (t.update report r).1
  | .updateExOp report r => (t.update_ex report r).1
  | .requestNotificationOp r => (t.request_notification r).1

/-- State reached after a sequence of public operations. -/
def runOps (t : DualShock4Wired) : List Op → DualShock4Wired
  | [] => t
  | op :: ops => runOps (stepOp t op) ops

/-! ## Helper lemmas about the probe loop -/

/-- When every candidate from `s` up to 65534 is rejected, the probe loop
exhausts exactly the candidates `s, s+1, …, 65534` and yields no slot. -/
theorem pluginLoop_all_rejected (accept : Nat → Bool) :
    ∀ s, s < 65535 →
    (∀ j, s ≤ j → j < 65535 → accept j = false) →
    pluginLoop accept s = (none, List.range' s (65535 - s)) := by
  intro s
  induction s using pluginLoop.induct accept with
  | case1 x hx =>
    intro hlt hrej
    rw [hrej x le_rfl hlt] at hx
    exact absurd hx (by simp)
  | case2 x hx hbound =>
    intro hlt hrej
    rw [pluginLoop.eq_def]
    have hx' : accept x = false := by simpa using hx
    have h1 : 65535 - x = 1 := by omega
    simp [hx', hbound, h1, List.range'_succ]
  | case3 x hx hbound ih =>
    intro hlt hrej
    rw [pluginLoop.eq_def]
    have hx' : accept x = false := by simpa using hx
    have h1 : pluginLoop accept (x + 1) = (none, List.range' (x + 1) (65535 - (x + 1))) :=
      ih (by omega) (fun j hj hj' => hrej j (by omega) hj')
    have h2 : 65535 - x = (65535 - (x + 1)) + 1 := by omega
    simp [hx', hbound, h1, h2, List.range'_succ]

/-- When `k < 65535` is the first accepted candidate at or after `s`, the
probe loop probes exactly `s, …, k` and yields slot `k`. -/
theorem pluginLoop_first_accepted (accept : Nat → Bool) :
    ∀ s k, s ≤ k → k < 65535 → accept k = true →
    (∀ j, s ≤ j → j < k → accept j = false) →
    pluginLoop accept s = (some k, List.range' s (k - s + 1)) := by
  intro s
  induction s using pluginLoop.induct accept with
  | case1 x hx =>
    intro k hsk hk hacc hrej
    have hxk : x = k := by
      by_contra hne
      have := hrej x le_rfl (by omega)
      rw [this] at hx; exact absurd hx (by simp)
    subst hxk
    rw [pluginLoop.eq_def]
    simp [hx, List.range'_succ]
  | case2 x hx hbound =>
    intro k hsk hk hacc hrej
    have hx' : accept x = false := by simpa using hx
    have hxk : x ≠ k := fun h => by rw [h, hacc] at hx'; exact absurd hx' (by simp)
    have := hrej k hsk (by omega)
    omega
  | case3 x hx hbound ih =>
    intro k hsk hk hacc hrej
    have hx' : accept x = false := by simpa using hx
    have hxk : x ≠ k := fun h => by rw [h, hacc] at hx'; exact absurd hx' (by simp)
    rw [pluginLoop.eq_def]
    have h1 : pluginLoop accept (x + 1) = (some k, List.range' (x + 1) (k - (x + 1) + 1)) :=
      ih k (by omega) hk hacc (fun j hj hj' => hrej j (by omega) hj')
    have h2 : k - x + 1 = (k - (x + 1) + 1) + 1 := by omega
    simp [hx', hbound, h1, h2, List.range'_succ]

/-- Any slot the probe loop accepts, starting below 65535, lies between the
start candidate and 65534. -/
theorem pluginLoop_some_bound (accept : Nat → Bool) :
    ∀ s k l, s < 65535 → pluginLoop accept s = (some k, l) → s ≤ k ∧ k < 65535 := by
  intro s
  induction s using pluginLoop.induct accept with
  | case1 x hx =>
    intro k l hlt heq
    rw [pluginLoop.eq_def] at heq
    simp [hx] at heq
    omega
  | case2 x hx hbound =>
    intro k l hlt heq
    have hx' : accept x = false := by simpa using hx
    rw [pluginLoop.eq_def] at heq
    simp [hx', hbound] at heq
  | case3 x hx hbound ih =>
    intro k l hlt heq
    have hx' : accept x = false := by simpa using hx
    rw [pluginLoop.eq_def] at heq
    simp [hx', hbound] at heq
    obtain ⟨h1, h2⟩ := heq
    have := ih k (pluginLoop accept (x + 1)).2 (by omega) (by
      cases h : pluginLoop accept (x + 1) with
      | mk a b => simp at h1 ⊢; rw [h] at h1; simpa using h1)
    omega

/-! ## Helper lemmas about the notification object -/

/-- A poll step never raises the slot snapshot: it leaves `SerialNo`
unchanged or clears it to 0. -/
theorem poll_SerialNo (s : DSRequestNotification) (wait : Bool)
    (s' : DSRequestNotification) (r : Except Error (Option DS4OutputReport))
    (h : s.poll wait = some (s', r)) :
    s'.buffer.SerialNo = s.buffer.SerialNo ∨ s'.buffer.SerialNo = 0 := by
  unfold DSRequestNotification.poll at h
  cases hs : s.status with
  | pending =>
    cases wait with
    | true => simp [busPoll, hs] at h
    | false =>
      simp [busPoll, hs, ERROR_IO_INCOMPLETE, ERROR_OPERATION_ABORTED] at h
      obtain ⟨h1, -⟩ := h
      subst h1
      simp
  | completed =>
    simp [busPoll, hs] at h
    obtain ⟨h1, -⟩ := h
    subst h1
    simp
  | aborted =>
    simp [busPoll, hs, ERROR_IO_INCOMPLETE, ERROR_OPERATION_ABORTED] at h
    obtain ⟨h1, -⟩ := h
    subst h1
    simp
  | failed code =>
    simp only [busPoll, hs] at h
    split_ifs at h with hc1 hc2 <;>
      { simp at h; obtain ⟨h1, -⟩ := h; subst h1; simp }

/-- Once the slot snapshot is 0 the object is inert: no object-level
operation changes `SerialNo` and none issues a device-control request. -/
theorem applyRNOp_detached (s : DSRequestNotification) (op : RNOp)
    (h : s.buffer.SerialNo = 0) :
    (applyRNOp s op).1.buffer.SerialNo = 0 ∧ (applyRNOp s op).2 = false := by
  cases op with
  | requestOp => simp [applyRNOp, DSRequestNotification.request, h]
  | pollOp wait =>
    simp only [applyRNOp]
    cases hp : s.poll wait with
    | none => simp [h]
    | some pr =>
      obtain ⟨s', r⟩ := pr
      have := poll_SerialNo s wait s' r hp
      simp
      omega

/-- Once the slot snapshot is 0, every sequence of object-level operations
keeps it 0 and issues no device-control request. -/
theorem runRN_detached (s : DSRequestNotification) (h : s.buffer.SerialNo = 0) :
    ∀ ops : List RNOp,
      (runRN s ops).buffer.SerialNo = 0 ∧ ioctlCount s ops = 0 := by
  intro ops
  induction ops generalizing s with
  | nil => exact ⟨h, rfl⟩
  | cons op rest ih =>
    obtain ⟨h1, h2⟩ := applyRNOp_detached s op h
    obtain ⟨h3, h4⟩ := ih (applyRNOp s op).1 h1
    refine ⟨h3, ?_⟩
    simp [ioctlCount, h2, h4]

/-! ## Claim theorems -/

/-- C4: calling `plugin` while attached fails with `AlreadyConnected`, and
calling `unplug`, `wait_ready`, `update`, `update_ex` or
`request_notification` while unattached fails with `NotPluggedIn`; in every
such wrong-state call the target is left unchanged and no device-control
request is issued. -/
theorem wrong_state_calls_reject (t : DualShock4Wired) (accept : Nat → Bool)
    (r : Except Error Unit) (report reportEx : Nat) :
    (t.is_attached = true →
      t.plugin accept = (t, .error .AlreadyConnected, []))
  ∧ (t.is_attached = false →
      t.unplug r = (t, .error .NotPluggedIn, [])
    ∧ t.wait_ready r = (t, .error .NotPluggedIn, [])
    ∧ t.update report r = (t, .error .NotPluggedIn, [])
    ∧ t.update_ex reportEx r = (t, .error .NotPluggedIn, [])
    ∧ t.request_notification r = (t, .error .NotPluggedIn, [])) := by
  constructor
  · intro h
    simp [DualShock4Wired.plugin, h]
  · intro h
    refine ⟨?_, ?_, ?_, ?_, ?_⟩ <;>
      simp [DualShock4Wired.unplug, DualShock4Wired.wait_ready,
            DualShock4Wired.update, DualShock4Wired.update_ex,
            DualShock4Wired.request_notification, h]

/-- C4 witness: a fresh unattached target rejects `unplug` with
`NotPluggedIn`, and the same target with slot 3 rejects `plugin` with
`AlreadyConnected`; neither issues an ioctl or changes state. -/
theorem wrong_state_calls_reject_witness :
    DualShock4Wired.plugin { client := 7, serial_no := 3, id := ⟨1356, 1476⟩ }
        (fun _ => true)
      = ({ client := 7, serial_no := 3, id := ⟨1356, 1476⟩ },
         .error .AlreadyConnected, [])
  ∧ DualShock4Wired.unplug (DualShock4Wired.new 7 ⟨1356, 1476⟩) (.ok ())
      = (DualShock4Wired.new 7 ⟨1356, 1476⟩, .error .NotPluggedIn, []) := by
  have h1 := wrong_state_calls_reject
    { client := 7, serial_no := 3, id := ⟨1356, 1476⟩ } (fun _ => true) (.ok ()) 0 0
  have h2 := wrong_state_calls_reject
    (DualShock4Wired.new 7 ⟨1356, 1476⟩) (fun _ => true) (.ok ()) 0 0
  exact ⟨h1.1 (by decide), (h2.2 (by decide)).1⟩

/-- C5: `unplug` on an attached target issues the detach ioctl for the
current slot; on success it clears `serial_no` to 0, and on a channel error
the error is returned unchanged while `serial_no` keeps its value. -/
theorem unplug_attached (t : DualShock4Wired) (e : Error)
    (h : t.is_attached = true) :
    t.unplug (.ok ()) = ({ t with serial_no := 0 }, .ok (), [.unplugReq t.serial_no])
  ∧ t.unplug (.error e) = (t, .error e, [.unplugReq t.serial_no]) := by
  constructor <;> simp [DualShock4Wired.unplug, h]

/-- C5 witness: a target attached on slot 3 detaches on success and keeps
slot 3 when the channel reports `WinError 31`. -/
theorem unplug_attached_witness :
    DualShock4Wired.unplug { client := 7, serial_no := 3, id := ⟨1356, 1476⟩ } (.ok ())
      = ({ client := 7, serial_no := 0, id := ⟨1356, 1476⟩ }, .ok (), [.unplugReq 3])
  ∧ DualShock4Wired.unplug { client := 7, serial_no := 3, id := ⟨1356, 1476⟩ }
        (.error (.WinError 31))
      = ({ client := 7, serial_no := 3, id := ⟨1356, 1476⟩ },
         .error (.WinError 31), [.unplugReq 3]) := by
  exact unplug_attached { client := 7, serial_no := 3, id := ⟨1356, 1476⟩ }
    (.WinError 31) (by decide)

/-- C3: dropping a notification object whose slot snapshot is nonzero
cancels the pending asynchronous call strictly before the in-flight buffer
is released, and the drop path is identical for every cancellation outcome
(failures are discarded; the result type carries no error). -/
theorem rn_drop_cancel_before_free (s : DSRequestNotification)
    (res res' : Except Nat Unit) (h : s.buffer.SerialNo ≠ 0) :
    s.dropRun res = [DropEvent.cancelEv, DropEvent.freeBufferEv]
  ∧ s.dropRun res = s.dropRun res' := by
  constructor
  · simp [DSRequestNotification.dropRun, h]
  · rfl

/-- C3 witness: dropping an object with slot snapshot 3 under a failing
cancellation still cancels before freeing the buffer, matching a succeeding
cancellation. -/
theorem rn_drop_cancel_before_free_witness :
    DSRequestNotification.dropRun (DSRequestNotification.new 3) (.error 5)
      = [DropEvent.cancelEv, DropEvent.freeBufferEv]
  ∧ DSRequestNotification.dropRun (DSRequestNotification.new 3) (.error 5)
      = DSRequestNotification.dropRun (DSRequestNotification.new 3) (.ok ()) := by
  exact rn_drop_cancel_before_free (DSRequestNotification.new 3) (.error 5) (.ok ())
    (by decide)

/-- C7: with no completed notification available — `pending` covers a fresh
object on which no `request` was ever issued — `poll` with `wait = false`
returns `Ok none` (no result yet, no error), leaving the object unchanged. -/
theorem poll_nowait_pending (s : DSRequestNotification) (n : Nat)
    (h : s.status = .pending) :
    s.poll false = some (s, .ok none)
  ∧ (DSRequestNotification.new n).poll false
      = some (DSRequestNotification.new n, .ok none) := by
  constructor
  · simp [DSRequestNotification.poll, busPoll, h,
          ERROR_IO_INCOMPLETE, ERROR_OPERATION_ABORTED]
  · simp [DSRequestNotification.poll, busPoll, DSRequestNotification.new,
          ERROR_IO_INCOMPLETE, ERROR_OPERATION_ABORTED]

/-- C7 witness: a fresh notification object for slot 3 polled without
waiting returns `Ok none`. -/
theorem poll_nowait_pending_witness :
    (DSRequestNotification.new 3).poll false
      = some (DSRequestNotification.new 3, .ok none) := by
  exact (poll_nowait_pending (DSRequestNotification.new 3) 3 (by decide)).2

/-- C8: after the controller completes a request by writing a report into
the in-flight buffer, `poll` returns exactly that report, field for field. -/
theorem poll_roundtrip (s : DSRequestNotification) (r : DS4OutputReport)
    (wait : Bool) :
    (s.completeWith r).poll wait = some (s.completeWith r, .ok (some r)) := by
  cases r
  simp [DSRequestNotification.poll, busPoll, DSRequestNotification.completeWith]

/-- Helper for C6: polling a completed request leaves the object unchanged
and issues no ioctl. -/
theorem applyRNOp_poll_completed (s : DSRequestNotification) (w : Bool)
    (h : s.status = .completed) :
    applyRNOp s (.pollOp w) = (s, false) := by
  simp [applyRNOp, DSRequestNotification.poll, busPoll, h]

/-- C2: once `poll` observes the abort status (target unplugged while a
request was outstanding) it clears the slot snapshot to 0 and fails with
`OperationAborted`; from then on every sequence of `request`/`poll` calls
keeps the snapshot 0 (the object cannot be reattached) and issues no
device-control request (`request` is a no-op). -/
theorem poll_abort_terminal (s : DSRequestNotification) (w : Bool)
    (h : s.status = .aborted) :
    s.poll w = some ({ s with buffer := { s.buffer with SerialNo := 0 } },
                     .error .OperationAborted)
  ∧ ∀ ops : List RNOp,
      (runRN { s with buffer := { s.buffer with SerialNo := 0 } } ops).buffer.SerialNo = 0
    ∧ ioctlCount { s with buffer := { s.buffer with SerialNo := 0 } } ops = 0 := by
  constructor
  · simp [DSRequestNotification.poll, busPoll, h,
          ERROR_IO_INCOMPLETE, ERROR_OPERATION_ABORTED]
  · intro ops
    exact runRN_detached _ rfl ops

/-- C2 witness: an object on slot 5 whose request was aborted fails its
next poll with `OperationAborted`, clearing the snapshot; a subsequent
`request` then `poll` issue no ioctl and leave the snapshot 0. -/
theorem poll_abort_terminal_witness :
    DSRequestNotification.poll
        { buffer := { SerialNo := 5
                      Report := { small_motor := 0, large_motor := 0
                                  lightbar_color := { red := 0, green := 0, blue := 0 } } }
          status := .aborted } true
      = some ({ buffer := { SerialNo := 0
                            Report := { small_motor := 0, large_motor := 0
                                        lightbar_color := { red := 0, green := 0, blue := 0 } } }
                status := .aborted }, .error .OperationAborted)
  ∧ (runRN { buffer := { SerialNo := 0
                         Report := { small_motor := 0, large_motor := 0
                                     lightbar_color := { red := 0, green := 0, blue := 0 } } }
             status := .aborted } [.requestOp, .pollOp false]).buffer.SerialNo = 0
  ∧ ioctlCount { buffer := { SerialNo := 0
                             Report := { small_motor := 0, large_motor := 0
                                         lightbar_color := { red := 0, green := 0, blue := 0 } } }
                 status := .aborted } [.requestOp, .pollOp false] = 0 := by
  have h := poll_abort_terminal
    { buffer := { SerialNo := 5
                  Report := { small_motor := 0, large_motor := 0
                              lightbar_color := { red := 0, green := 0, blue := 0 } } }
      status := .aborted } true rfl
  exact ⟨h.1, (h.2 [.requestOp, .pollOp false]).1, (h.2 [.requestOp, .pollOp false]).2⟩

/-- C6: once the outstanding request has completed, `poll` returns the
copied report without issuing a device-control request, and any sequence of
further `poll` calls (no intervening `request`) leaves the object unchanged,
so every such poll returns the same result. -/
theorem poll_completed_stable (s : DSRequestNotification) (w : Bool)
    (h : s.status = .completed) :
    s.poll w = some (s, .ok (some { small_motor := s.buffer.Report.small_motor
                                    large_motor := s.buffer.Report.large_motor
                                    lightbar_color := s.buffer.Report.lightbar_color }))
  ∧ (applyRNOp s (.pollOp w)).2 = false
  ∧ ∀ ops : List RNOp, RNOp.requestOp ∉ ops → runRN s ops = s := by
  refine ⟨?_, ?_, ?_⟩
  · simp [DSRequestNotification.poll, busPoll, h]
  · rw [applyRNOp_poll_completed s w h]
  · intro ops
    induction ops with
    | nil => intro _; rfl
    | cons op rest ih =>
      intro hmem
      cases op with
      | requestOp => exact absurd (List.mem_cons_self _ _) hmem
      | pollOp w' =>
        have hstep := applyRNOp_poll_completed s w' h
        simp only [runRN, hstep]
        exact ih (fun hr => hmem (List.mem_cons_of_mem _ hr))

/-- C6 witness: an object on slot 3 whose request completed with report
(2, 3, (4, 5, 6)) returns exactly that report from a blocking poll, issues
no ioctl, and is unchanged by two further polls without a request. -/
theorem poll_completed_stable_witness :
    DSRequestNotification.poll
        { buffer := { SerialNo := 3
                      Report := { small_motor := 2, large_motor := 3
                                  lightbar_color := { red := 4, green := 5, blue := 6 } } }
          status := .completed } true
      = some ({ buffer := { SerialNo := 3
                            Report := { small_motor := 2, large_motor := 3
                                        lightbar_color := { red := 4, green := 5, blue := 6 } } }
                status := .completed },
              .ok (some { small_motor := 2, large_motor := 3
                          lightbar_color := { red := 4, green := 5, blue := 6 } }))
  ∧ runRN { buffer := { SerialNo := 3
                        Report := { small_motor := 2, large_motor := 3
                                    lightbar_color := { red := 4, green := 5, blue := 6 } } }
            status := .completed } [.pollOp false, .pollOp true]
      = { buffer := { SerialNo := 3
                      Report := { small_motor := 2, large_motor := 3
                                  lightbar_color := { red := 4, green := 5, blue := 6 } } }
          status := .completed } := by
  have h := poll_completed_stable
    { buffer := { SerialNo := 3
                  Report := { small_motor := 2, large_motor := 3
                              lightbar_color := { red := 4, green := 5, blue := 6 } } }
      status := .completed } true rfl
  refine ⟨h.1, h.2.2 [.pollOp false, .pollOp true] ?_⟩
  intro hmem
  simp at hmem

/-- C9: both teardown paths of a target (the consuming `drop(self)` and the
`Drop` impl) perform `unplug` best-effort: when attached the detach ioctl is
issued, the outcome is discarded (the result is identical for every channel
outcome and carries no error type), and `drop(self)` returns the client
unconditionally. -/
theorem target_drop_best_effort (t : DualShock4Wired) (r r' : Except Error Unit) :
    t.dropConsume r = (t.client, (t.unplug r).2.2)
  ∧ t.dropImpl r = (t.unplug r).2.2
  ∧ (t.is_attached = true → (t.unplug r).2.2 = [.unplugReq t.serial_no])
  ∧ (t.dropConsume r).1 = (t.dropConsume r').1 := by
  refine ⟨rfl, rfl, ?_, rfl⟩
  intro h
  cases r with
  | ok u => simp [DualShock4Wired.unplug, h]
  | error e => simp [DualShock4Wired.unplug, h]

/-- C9 witness: dropping a target attached on slot 3 with a failing detach
still returns client 7 and issued the detach ioctl, same as with a
succeeding detach. -/
theorem target_drop_best_effort_witness :
    DualShock4Wired.dropConsume { client := 7, serial_no := 3, id := ⟨1356, 1476⟩ }
        (.error (.WinError 31))
      = (7, [.unplugReq 3])
  ∧ DualShock4Wired.dropImpl { client := 7, serial_no := 3, id := ⟨1356, 1476⟩ }
        (.error (.WinError 31))
      = [.unplugReq 3]
  ∧ (DualShock4Wired.dropConsume { client := 7, serial_no := 3, id := ⟨1356, 1476⟩ }
        (.error (.WinError 31))).1
      = (DualShock4Wired.dropConsume { client := 7, serial_no := 3, id := ⟨1356, 1476⟩ }
          (.ok ())).1 := by
  have h := target_drop_best_effort { client := 7, serial_no := 3, id := ⟨1356, 1476⟩ }
    (.error (.WinError 31)) (.ok ())
  have hioctl := h.2.2.1 (by decide)
  exact ⟨by rw [h.1, hioctl], by rw [h.2.1, hioctl], h.2.2.2⟩

/-- Helper for C10: a successful probe from candidate 1 yields a slot in
1..65534, so `plugin` stores a nonzero value below 65535. -/
theorem plugin_serial_bound (t : DualShock4Wired) (accept : Nat → Bool)
    (h : t.serial_no < 65535) :
    (t.plugin accept).1.serial_no < 65535 := by
  simp only [DualShock4Wired.plugin]
  by_cases ha : t.is_attached
  · simp [ha, h]
  · simp only [ha, Bool.false_eq_true, if_false]
    cases hp : pluginLoop accept 1 with
    | mk o probed =>
      cases o with
      | none => simpa using h
      | some k =>
        have hb := pluginLoop_some_bound accept 1 k probed (by omega) hp
        simpa using hb.2

/-- Helper for C10: every public operation preserves `serial_no < 65535`. -/
theorem stepOp_serial_bound (t : DualShock4Wired) (op : Op)
    (h : t.serial_no < 65535) : (stepOp t op).serial_no < 65535 := by
  cases op with
  | pluginOp accept => exact plugin_serial_bound t accept h
  | unplugOp r =>
    simp only [stepOp, DualShock4Wired.unplug]
    by_cases ha : t.is_attached <;> cases r <;> simp [ha, h]
  | waitReadyOp r =>
    simp only [stepOp, DualShock4Wired.wait_ready]
    by_cases ha : t.is_attached <;> cases r <;> simp [ha, h]
  | updateOp report r =>
    simp only [stepOp, DualShock4Wired.update]
    by_cases ha : t.is_attached <;> cases r <;> simp [ha, h]
  | updateExOp report r =>
    simp only [stepOp, DualShock4Wired.update_ex]
    by_cases ha : t.is_attached <;> cases r <;> simp [ha, h]
  | requestNotificationOp r =>
    simp only [stepOp, DualShock4Wired.request_notification]
    by_cases ha : t.is_attached <;> cases r <;> simp [ha, h]

/-- Helper for C10: the bound `serial_no < 65535` holds along every run. -/
theorem runOps_serial_bound (t : DualShock4Wired) (ops : List Op)
    (h : t.serial_no < 65535) : (runOps t ops).serial_no < 65535 := by
  induction ops generalizing t with
  | nil => exact h
  | cons op rest ih => exact ih (stepOp t op) (stepOp_serial_bound t op h)

/-- C10: in every state reachable from a fresh target through the public
operations, `serial_no` stays strictly below 65535 (never `u16::MAX` or
above); `is_attached` holds exactly when `serial_no` is nonzero; and a
successful `plugin` always leaves `is_attached` true. -/
theorem serial_no_invariant (client : Nat) (id : TargetId) (ops : List Op) :
    (runOps (DualShock4Wired.new client id) ops).serial_no < 65535
  ∧ ((runOps (DualShock4Wired.new client id) ops).is_attached = true ↔
      (runOps (DualShock4Wired.new client id) ops).serial_no ≠ 0)
  ∧ ∀ (t : DualShock4Wired) (accept : Nat → Bool),
      (t.plugin accept).2.1 = .ok () → (t.plugin accept).1.is_attached = true := by
  refine ⟨runOps_serial_bound _ ops (by simp [DualShock4Wired.new]), ?_, ?_⟩
  · simp [DualShock4Wired.is_attached]
  · intro t accept hok
    simp only [DualShock4Wired.plugin] at hok ⊢
    by_cases ha : t.is_attached
    · simp [ha] at hok
    · simp only [ha, Bool.false_eq_true, if_false] at hok ⊢
      cases hp : pluginLoop accept 1 with
      | mk o probed =>
        cases o with
        | none => rw [hp] at hok; simp at hok
        | some k =>
          have hb := pluginLoop_some_bound accept 1 k probed (by omega) hp
          simp [DualShock4Wired.is_attached]
          omega

/-- C10 witness: after one `plugin` whose controller accepts candidate 1,
the reachable state keeps `serial_no` below 65535, and that `plugin` leaves
the target attached. -/
theorem serial_no_invariant_witness :
    (runOps (DualShock4Wired.new 7 ⟨1356, 1476⟩)
        [Op.pluginOp (fun n => decide (n = 1))]).serial_no < 65535
  ∧ ((DualShock4Wired.new 7 ⟨1356, 1476⟩).plugin
        (fun n => decide (n = 1))).1.is_attached = true := by
  have h := serial_no_invariant 7 ⟨1356, 1476⟩ [Op.pluginOp (fun n => decide (n = 1))]
  refine ⟨h.1, h.2.2 (DualShock4Wired.new 7 ⟨1356, 1476⟩) (fun n => decide (n = 1)) ?_⟩
  simp [DualShock4Wired.plugin, DualShock4Wired.new, DualShock4Wired.is_attached,
        pluginLoop]

/-- C1 (amended): `plugin` on an unattached target probes candidate slots
linearly starting at 1, but only up to candidate 65534: it returns `Ok` on
the first accepted candidate `k ≤ 65534`, storing `k` in `serial_no` and
having probed exactly `1..k`; and if the 65534 candidates `1..65534` are all
rejected (candidate 65535 is never probed), it returns `NoFreeSlot` with the
target unchanged (`serial_no` still 0). -/
theorem plugin_probe_amended (t : DualShock4Wired) (accept : Nat → Bool)
    (hun : t.serial_no = 0) :
    (∀ k, 1 ≤ k → k < 65535 → accept k = true →
      (∀ j, 1 ≤ j → j < k → accept j = false) →
      t.plugin accept =
        ({ t with serial_no := k }, .ok (),
         (List.range' 1 k).map fun n => .pluginReq n t.id.vendor t.id.product))
  ∧ ((∀ j, 1 ≤ j → j < 65535 → accept j = false) →
      t.plugin accept =
        (t, .error .NoFreeSlot,
         (List.range' 1 65534).map fun n => .pluginReq n t.id.vendor t.id.product)) := by
  have hna : t.is_attached = false := by
    simp [DualShock4Wired.is_attached, hun]
  constructor
  · intro k hk1 hk2 hacc hrej
    have hl := pluginLoop_first_accepted accept 1 k hk1 hk2 hacc
      (fun j hj hj' => hrej j hj hj')
    have hr : k - 1 + 1 = k := by omega
    rw [hr] at hl
    simp [DualShock4Wired.plugin, hna, hl]
  · intro hrej
    have hl := pluginLoop_all_rejected accept 1 (by omega)
      (fun j hj hj' => hrej j hj hj')
    norm_num at hl
    simp [DualShock4Wired.plugin, hna, hl]

/-- C1 witness: with a controller accepting exactly candidate 2, `plugin`
probes 1 then 2 and attaches on slot 2. -/
theorem plugin_probe_amended_witness :
    (DualShock4Wired.new 7 ⟨1356, 1476⟩).plugin (fun n => decide (n = 2))
      = ({ client := 7, serial_no := 2, id := ⟨1356, 1476⟩ }, .ok (),
         [.pluginReq 1 1356 1476, .pluginReq 2 1356 1476]) := by
  have h := (plugin_probe_amended (DualShock4Wired.new 7 ⟨1356, 1476⟩)
      (fun n => decide (n = 2)) rfl).1 2 (by omega) (by omega) (by simp)
    (fun j h1 h2 => by simp; omega)
  simpa [DualShock4Wired.new, List.range'] using h

/-- C1 counterexample: with a controller that rejects candidates 1..65534
and accepts 65535 — so the first accepted candidate is 65535 and only 65534
consecutive rejections occur, fewer than the 65535 the claim allows before
`NoFreeSlot` — `plugin` still fails with `NoFreeSlot` instead of returning
`Ok`: candidate 65535 is never probed. -/
theorem plugin_probe_counterexample :
    (∀ j, 1 ≤ j → j < 65535 → (fun n => decide (n = 65535)) j = false)
  ∧ (fun n => decide (n = 65535)) 65535 = true
  ∧ (DualShock4Wired.new 7 ⟨1356, 1476⟩).plugin (fun n => decide (n = 65535))
      = (DualShock4Wired.new 7 ⟨1356, 1476⟩, .error .NoFreeSlot,
         (List.range' 1 65534).map fun n => .pluginReq n 1356 1476) := by
  refine ⟨fun j h1 h2 => by simp; omega, by simp, ?_⟩
  have hl := pluginLoop_all_rejected (fun n => decide (n = 65535)) 1 (by omega)
    (fun j hj hj' => by simp; omega)
  norm_num at hl
  simp [DualShock4Wired.plugin, DualShock4Wired.new, DualShock4Wired.is_attached, hl]
